import Mathlib

/-!
Verification of the browser-tools-mcp toolkit against its specification.

The development shallowly embeds the TypeScript sources:
  - the tool registry class BrowserToolsMCP (registerTool / executeTool),
  - the checkBrowserCompatibility built-in tool,
  - the React hook facade useBrowserTools (debugState / measurePerformance),
  - the Express integration BrowserToolsExpress (POST /events handler,
    GET /metrics/performance handler, logEvent).

JavaScript dynamic values are embedded by the inductive type Js below; the
external Supabase store is an opaque collaborator and is embedded as an
abstract store state with an explicit insert/select behaviour, following the
collaborator interface the specification describes (insert and select each
return a data/error pair, and insert may also raise). Console output is
embedded as an explicit list of log entries where a claim refers to it.
-/

/-- Embedding of loosely-typed JavaScript values (numbers restricted to
integers, which is all the claims need). -/
inductive Js : Type where
  | null : Js
  | undefined : Js
  | bool : Bool → Js
  | num : Int → Js
  | str : String → Js
  | arr : List Js → Js
  | obj : List (String × Js) → Js

/-- JavaScript truthiness of a value (0, empty string, null, undefined and
false are falsy; every object and array is truthy). -/
def Js.truthy : Js → Bool
  | .null => false
  | .undefined => false
  | .bool b => b
  | .num n => n != 0
  | .str s => s ≠ ""
  | .arr _ => true
  | .obj _ => true

/-- A value on which property access throws a TypeError (null or undefined). -/
def Js.isNullish : Js → Bool
  | .null => true
  | .undefined => true
  | _ => false

/-- First binding of a key in an object field list. -/
def lookupField : List (String × Js) → String → Option Js
  | [], _ => none
  | (k, v) :: rest, key => if k = key then some v else lookupField rest key

/-- Property access on a non-nullish value: a missing key, or any host on
which the key cannot live (number, string, ...), reads as undefined. Callers
guard the nullish case, where JavaScript would throw, explicitly. -/
def Js.get : Js → String → Js
  | .obj fields, key => (lookupField fields key).getD .undefined
  | _, _ => .undefined

/-- The JavaScript expression a || b: the left operand if truthy, else the
right operand. -/
def jsOr (a b : Js) : Js := if a.truthy then a else b

/-- A console signal: console.log, console.warn or console.error. -/
inductive LogEntry : Type where
  | log : String → LogEntry
  | warn : String → LogEntry
  | error : String → LogEntry

/-! ### Tool registry (class BrowserToolsMCP, file browser-tools-mcp.ts)

Tool executables are kept generic: a tool takes a list of argument values of
a type V and either returns a V or raises an error of a type E. -/

/-- A registered tool: interface BrowserTool of browser-tools-mcp.ts. -/
structure BrowserTool (E V : Type) : Type where
  name : String
  description : String
  execute : List V → Except E V

/-- The registry state: the private field tools, a Map from name to tool.
A JavaScript Map is embedded as an insertion-ordered association list. -/
structure Registry (E V : Type) : Type where
  tools : List (String × BrowserTool E V)

/-- Map.prototype.set semantics: replace the entry in place when the key is
already bound, append otherwise. -/
def setEntry {E V : Type} (m : List (String × BrowserTool E V)) (key : String)
    (t : BrowserTool E V) : List (String × BrowserTool E V) :=
  match m with
  | [] => [(key, t)]
  | (k, u) :: rest =>
      if k = key then (key, t) :: rest else (k, u) :: setEntry rest key t

/-- Map.prototype.get semantics. -/
def getEntry {E V : Type} (m : List (String × BrowserTool E V)) (key : String) :
    Option (BrowserTool E V) :=
  match m with
  | [] => none
  | (k, u) :: rest => if k = key then some u else getEntry rest key

/-- Map.prototype.has semantics, as used by registerTool. -/
def hasTool {E V : Type} (r : Registry E V) (name : String) : Bool :=
  (getEntry r.tools name).isSome

/-- The console.warn message of registerTool on a name collision. -/
def alreadyRegisteredMsg (name : String) : String :=
  "Ferramenta \"" ++ name ++ "\" já está registrada. Substituindo..."

/-- The console.log message of registerTool on completion. -/
def registeredMsg (name : String) : String :=
  "Ferramenta \"" ++ name ++ "\" registrada com sucesso."

/-- BrowserToolsMCP.registerTool: warn when the name is already bound, then
store the tool under its name and log success. Returns the updated registry
and the console output. -/
def registerTool {E V : Type} (r : Registry E V) (t : BrowserTool E V) :
    Registry E V × List LogEntry :=
  (⟨setEntry r.tools t.name t⟩,
   (if hasTool r t.name then [LogEntry.warn (alreadyRegisteredMsg t.name)]
    else []) ++ [LogEntry.log (registeredMsg t.name)])

/-- The message of the Error thrown by executeTool on an unknown name. -/
def notFoundMessage (name : String) : String :=
  "Ferramenta \"" ++ name ++ "\" não encontrada."

/-- The console.error context emitted when a tool raises. -/
def execErrorMsg (name : String) : String :=
  "Erro ao executar a ferramenta \"" ++ name ++ "\":"

/-- An error escaping executeTool: either an Error object thrown by the
registry itself (the not-found case), or a re-raised tool-level error, which
the constructor toolErr injects unchanged. -/
inductive RegError (E : Type) : Type where
  | jsError : String → RegError E
  | toolErr : E → RegError E

/-- Full observable outcome of one executeTool call: the returned value or
escaped error, the names of the tools whose executable was invoked, the
console output, and the tools map after the call. -/
structure ExecOutcome (E V : Type) : Type where
  ret : Except (RegError E) V
  invoked : List String
  logs : List LogEntry
  toolsAfter : List (String × BrowserTool E V)

/-- BrowserToolsMCP.executeTool: look the name up; throw a not-found Error if
absent; otherwise invoke the executable inside a try/catch that logs a
failure with context and re-raises it. The method never writes the tools
map. -/
def executeTool {E V : Type} (r : Registry E V) (name : String)
    (args : List V) : ExecOutcome E V :=
  match getEntry r.tools name with
  | none => ⟨.error (.jsError (notFoundMessage name)), [], [], r.tools⟩
  | some t =>
      match t.execute args with
      | .ok v => ⟨.ok v, [name], [], r.tools⟩
      | .error e =>
          ⟨.error (.toolErr e), [name], [LogEntry.error (execErrorMsg name)],
           r.tools⟩

/-- Lookup after a set at the same key yields the new tool. -/
theorem getEntry_setEntry_self {E V : Type}
    (m : List (String × BrowserTool E V)) (key : String) (t : BrowserTool E V) :
    getEntry (setEntry m key t) key = some t := by
  induction m with
  | nil => simp [setEntry, getEntry]
  | cons hd tl ih =>
      obtain ⟨k, u⟩ := hd
      by_cases hk : k = key
      · simp [setEntry, getEntry, hk]
      · simp [setEntry, getEntry, hk, ih]

/-- Injection of a tool-level result into the outcome type of executeTool: a
normal return passes through, a raised error is re-raised unchanged under the
toolErr constructor. -/
def wrapToolResult {E V : Type} : Except E V → Except (RegError E) V
  | .ok v => .ok v
  | .error e => .error (.toolErr e)

/-- C1: for tools A and B with the same name, registering A and then B leaves
the registry executing the executable of B under that name (the entry of A is
replaced), and the second registration emits a console warning instead of
failing. -/
theorem registerTool_replaces_and_warns {E V : Type} (r : Registry E V)
    (A B : BrowserTool E V) (hname : A.name = B.name) (args : List V) :
    LogEntry.warn (alreadyRegisteredMsg B.name) ∈
      (registerTool (registerTool r A).1 B).2 ∧
    (executeTool (registerTool (registerTool r A).1 B).1 A.name args).ret =
      wrapToolResult (B.execute args) ∧
    (executeTool (registerTool (registerTool r A).1 B).1 A.name args).invoked
      = [A.name] := by
  have hhas : hasTool (Registry.mk (setEntry r.tools A.name A)) B.name = true := by
    simp [hasTool, ← hname, getEntry_setEntry_self]
  have hget :
      getEntry (registerTool (registerTool r A).1 B).1.tools A.name = some B := by
    simp [registerTool, hname, getEntry_setEntry_self]
  refine ⟨?_, ?_, ?_⟩
  · simp [registerTool, hhas]
  · cases hx : B.execute args <;> simp [executeTool, hget, hx, wrapToolResult]
  · cases hx : B.execute args <;> simp [executeTool, hget, hx]

/-- A first tool registered under the name dup, used to witness C1. -/
def toolA : BrowserTool String Nat :=
  ⟨"dup", "first version", fun _ => .ok 1⟩

/-- A second tool registered under the name dup, used to witness C1. -/
def toolB : BrowserTool String Nat :=
  ⟨"dup", "second version", fun _ => .ok 2⟩

/-- C1 witness at the empty registry, the tools toolA and toolB and no
arguments. -/
theorem registerTool_replaces_and_warns_witness :
    toolA.name = toolB.name ∧
    (LogEntry.warn (alreadyRegisteredMsg toolB.name) ∈
      (registerTool (registerTool ⟨[]⟩ toolA).1 toolB).2 ∧
    (executeTool (registerTool (registerTool ⟨[]⟩ toolA).1 toolB).1
        toolA.name []).ret = wrapToolResult (toolB.execute []) ∧
    (executeTool (registerTool (registerTool ⟨[]⟩ toolA).1 toolB).1
        toolA.name []).invoked = [toolA.name]) :=
  ⟨rfl, registerTool_replaces_and_warns ⟨[]⟩ toolA toolB rfl []⟩

/-- C2: executing an unregistered name fails with the not-found Error whose
message carries the requested name, invokes no executable of any registered
tool, and leaves the tools map unchanged. -/
theorem executeTool_notFound {E V : Type} (r : Registry E V) (name : String)
    (args : List V) (h : hasTool r name = false) :
    (executeTool r name args).ret =
      .error (.jsError (notFoundMessage name)) ∧
    (executeTool r name args).invoked = [] ∧
    (executeTool r name args).toolsAfter = r.tools ∧
    ∃ p s, notFoundMessage name = p ++ name ++ s := by
  have hg : getEntry r.tools name = none := by
    cases hx : getEntry r.tools name with
    | none => rfl
    | some t => simp [hasTool, hx] at h
  refine ⟨?_, ?_, ?_, "Ferramenta \"", "\" não encontrada.", rfl⟩ <;>
    simp [executeTool, hg]

/-- C2 witness at the empty registry and the name nonexistent. -/
theorem executeTool_notFound_witness :
    hasTool (Registry.mk ([] : List (String × BrowserTool String Nat)))
        "nonexistent" = false ∧
    ((executeTool (Registry.mk ([] : List (String × BrowserTool String Nat)))
        "nonexistent" []).ret =
      .error (.jsError (notFoundMessage "nonexistent")) ∧
    (executeTool (Registry.mk ([] : List (String × BrowserTool String Nat)))
        "nonexistent" []).invoked = [] ∧
    (executeTool (Registry.mk ([] : List (String × BrowserTool String Nat)))
        "nonexistent" []).toolsAfter = [] ∧
    ∃ p s, notFoundMessage "nonexistent" = p ++ "nonexistent" ++ s) :=
  ⟨rfl, executeTool_notFound ⟨[]⟩ "nonexistent" [] rfl⟩

/-- C3: when the looked-up tool raises an error e, executeTool logs the
failure with context and re-raises exactly e (injected unchanged by toolErr),
leaving the tools map untouched. -/
theorem executeTool_reraises {E V : Type} (r : Registry E V) (name : String)
    (args : List V) (t : BrowserTool E V) (e : E)
    (ht : getEntry r.tools name = some t)
    (he : t.execute args = .error e) :
    (executeTool r name args).ret = .error (.toolErr e) ∧
    (executeTool r name args).logs = [LogEntry.error (execErrorMsg name)] ∧
    (executeTool r name args).toolsAfter = r.tools := by
  refine ⟨?_, ?_, ?_⟩ <;> simp [executeTool, ht, he]

/-- A tool that always raises, used to witness C3. -/
def failTool : BrowserTool String Nat :=
  ⟨"boom", "always raises", fun _ => .error "kaboom"⟩

/-- C3 witness at a one-tool registry whose tool raises the string kaboom. -/
theorem executeTool_reraises_witness :
    getEntry (Registry.mk [("boom", failTool)]).tools "boom" = some failTool ∧
    failTool.execute [] = .error "kaboom" ∧
    ((executeTool (Registry.mk [("boom", failTool)]) "boom" []).ret =
      .error (.toolErr "kaboom") ∧
    (executeTool (Registry.mk [("boom", failTool)]) "boom" []).logs =
      [LogEntry.error (execErrorMsg "boom")] ∧
    (executeTool (Registry.mk [("boom", failTool)]) "boom" []).toolsAfter =
      [("boom", failTool)]) :=
  ⟨rfl, rfl, executeTool_reraises ⟨[("boom", failTool)]⟩ "boom" [] failTool
    "kaboom" rfl rfl⟩

/-! ### Express integration (class BrowserToolsExpress, src/unnamed/part_000)

The Supabase client is an external collaborator. Its insert and select calls
are embedded as an abstract store state: insert either resolves with a
data/error pair or rejects, select either resolves with the matching rows or
yields an error. This follows the collaborator interface described by the
specification (section 6). Console logging of the route handlers is pure
output and is elided there; logEvent keeps its console output because the
specification refers to it. -/

/-- Behaviour of the external insert call on the next row: resolve with data
and no error, resolve with an error carrying a message, or reject (throw). -/
inductive InsertBehavior : Type where
  | ok : Js → InsertBehavior
  | errResult : String → InsertBehavior
  | raise : String → InsertBehavior

/-- The row object built by the events handlers and passed to insert. -/
structure EventRow : Type where
  type : Js
  data : Js
  timestamp : Js
  user_id : Js

/-- A record living in the store, as the select call returns it. Timestamps
are embedded as integers (milliseconds); ISO-8601 strings compare the same
way lexicographically. -/
structure StoredEvent : Type where
  id : Int
  type : String
  timestamp : Int
  data : Js
  user_id : Js

/-- The opaque external store: the records select reads, the rows accepted by
insert so far, the behaviour of the next insert, and whether select yields an
error. -/
structure MockStore : Type where
  rows : List StoredEvent
  inserted : List EventRow
  insertBehavior : InsertBehavior
  selectError : Option String

/-- What one insert call produces: a rejection, or a resolved data/error
pair. -/
inductive InsertOutcome : Type where
  | thrown : String → InsertOutcome
  | result : Option String → Js → InsertOutcome

/-- One insert call against the store: only an accepting insert appends the
row. -/
def storeInsert (s : MockStore) (row : EventRow) : InsertOutcome × MockStore :=
  match s.insertBehavior with
  | .raise msg => (.thrown msg, s)
  | .errResult msg => (.result (some msg) Js.null, s)
  | .ok d => (.result none d, { s with inserted := s.inserted ++ [row] })

/-- An HTTP answer: res.status(n).json(body). -/
structure HttpResponse : Type where
  status : Nat
  body : Js

/-- Outcome of one route-handler call: the HTTP answer and the store state
after the call. -/
structure HandlerResult : Type where
  resp : HttpResponse
  store : Option MockStore

/-- The 400 message of the events handler. -/
def missingFieldsMsg : String := "Tipo e dados do evento são obrigatórios"

/-- Stand-in for the TypeError message raised when req.body is nullish and
the destructuring of its properties throws. -/
def destructureErrMsg : String :=
  "TypeError: req.body is not an object"

/-- POST /events handler of BrowserToolsExpress.router: destructure the body
(a nullish body throws, answered 500 by the catch); answer 400 when type or
data is falsy; with a configured store, insert the row with timestamp and
user_id defaulted by JavaScript or-expressions and answer 201 on success and
500 on a store failure; with no store, answer 200 with persisted false. -/
def postEvents (store : Option MockStore) (body : Js) (nowIso : String) :
    HandlerResult :=
  if body.isNullish then
    ⟨⟨500, Js.obj [("error", Js.str destructureErrMsg)]⟩, store⟩
  else
    let type := body.get "type"
    let data := body.get "data"
    let timestamp := body.get "timestamp"
    let userId := body.get "userId"
    if !type.truthy || !data.truthy then
      ⟨⟨400, Js.obj [("error", Js.str missingFieldsMsg)]⟩, store⟩
    else
      match store with
      | some s =>
          let row : EventRow :=
            ⟨type, data, jsOr timestamp (Js.str nowIso), jsOr userId Js.null⟩
          match storeInsert s row with
          | (.thrown msg, s2) =>
              ⟨⟨500, Js.obj [("error", Js.str msg)]⟩, some s2⟩
          | (.result (some msg) _, s2) =>
              ⟨⟨500, Js.obj [("error", Js.str msg)]⟩, some s2⟩
          | (.result none d, s2) =>
              ⟨⟨201, Js.obj [("success", Js.bool true), ("event", d)]⟩,
               some s2⟩
      | none =>
          ⟨⟨200, Js.obj [("success", Js.bool true),
                         ("persisted", Js.bool false)]⟩, none⟩

/-- Milliseconds in one day, the unit of the days query parameter. -/
def msPerDay : Int := 86400000

/-- The filter the metrics handler requests from the store: type equal to
performance and timestamp at least the cutoff. -/
def perfPred (cutoff : Int) (e : StoredEvent) : Bool :=
  e.type == "performance" && decide (cutoff ≤ e.timestamp)

/-- Newest-first ordering on stored events: the timestamp ordering requested
by the metrics handler with ascending false. -/
def tsDescRel (a b : StoredEvent) : Prop := b.timestamp ≤ a.timestamp

instance : DecidableRel tsDescRel :=
  fun a b => inferInstanceAs (Decidable (b.timestamp ≤ a.timestamp))

instance : IsTotal StoredEvent tsDescRel :=
  ⟨fun a b => le_total b.timestamp a.timestamp⟩

instance : IsTrans StoredEvent tsDescRel :=
  ⟨fun _ _ _ hab hbc => le_trans hbc hab⟩

/-- The select call of the metrics handler: the records matching the filter,
ordered newest-first by the store. -/
def selectPerf (rows : List StoredEvent) (cutoff : Int) : List StoredEvent :=
  List.insertionSort tsDescRel (rows.filter (perfPred cutoff))

/-- The projected metric object built from one selected record. -/
def projectMetricBody (e : StoredEvent) : Js :=
  Js.obj [("id", Js.num e.id), ("timestamp", Js.num e.timestamp),
          ("operation", e.data.get "operation"),
          ("duration", e.data.get "duration"),
          ("userId", e.user_id)]

/-- Stand-in for the TypeError message raised when the nested data payload of
a selected record is nullish and the property reads of the projection
throw. -/
def nullDataErrMsg : String :=
  "TypeError: event.data is not an object"

/-- Projection of one record, which throws when its data payload is
nullish. -/
def projectMetric (e : StoredEvent) : Except String Js :=
  if e.data.isNullish then .error nullDataErrMsg
  else .ok (projectMetricBody e)

/-- The data.map call of the metrics handler: project the records in order,
aborting at the first record whose projection throws. -/
def mapProject : List StoredEvent → Except String (List Js)
  | [] => .ok []
  | e :: rest =>
      match projectMetric e with
      | .error msg => .error msg
      | .ok v =>
          match mapProject rest with
          | .error msg => .error msg
          | .ok vs => .ok (v :: vs)

/-- GET /metrics/performance handler of BrowserToolsExpress.router: 503 with
no store; otherwise cutoff is now minus the days parameter (default 7) in
days, the store selects the matching records newest-first, and the handler
answers 200 with the projections, or 500 on a store or projection failure. -/
def getPerformanceMetrics (store : Option MockStore) (daysQ : Option Nat)
    (now : Int) : HandlerResult :=
  match store with
  | none => ⟨⟨503, Js.obj [("error", Js.str "Supabase não configurado")]⟩,
             none⟩
  | some s =>
      let cutoff : Int := now - (daysQ.getD 7 : Int) * msPerDay
      match s.selectError with
      | some msg => ⟨⟨500, Js.obj [("error", Js.str msg)]⟩, some s⟩
      | none =>
          match mapProject (selectPerf s.rows cutoff) with
          | .error msg => ⟨⟨500, Js.obj [("error", Js.str msg)]⟩, some s⟩
          | .ok ms => ⟨⟨200, Js.arr ms⟩, some s⟩

/-- Outcome of one logEvent call: the returned boolean, the store after the
call and the console output. -/
structure LogEventResult : Type where
  ok : Bool
  store : Option MockStore
  logs : List LogEntry

/-- The console.log message of logEvent with no store. -/
def serverNoPersistMsg (type : String) : String :=
  "[Browser Tools] Evento do servidor (sem persistência): " ++ type

/-- The console.error context of logEvent on a store failure. -/
def serverErrMsg : String :=
  "[Browser Tools] Erro ao registrar evento do servidor:"

/-- The console.log message of logEvent on success. -/
def serverOkMsg (type : String) : String :=
  "[Browser Tools] Evento do servidor registrado: " ++ type

/-- BrowserToolsExpress.logEvent: with no store, log and return false; with a
store, insert the row inside a try/catch; an error result returns false, a
rejection is caught and returns false, success returns true. The userId
parameter is kept as a JavaScript value so that userId or-null keeps its
source meaning. -/
def logEvent (store : Option MockStore) (logging : Bool) (type : String)
    (data : Js) (userId : Js) (nowIso : String) : LogEventResult :=
  match store with
  | none =>
      ⟨false, none,
       if logging then [LogEntry.log (serverNoPersistMsg type)] else []⟩
  | some s =>
      let row : EventRow := ⟨Js.str type, data, Js.str nowIso,
                             jsOr userId Js.null⟩
      match storeInsert s row with
      | (.thrown _, s2) => ⟨false, some s2, [LogEntry.error serverErrMsg]⟩
      | (.result (some _) _, s2) =>
          ⟨false, some s2, [LogEntry.error serverErrMsg]⟩
      | (.result none _, s2) =>
          ⟨true, some s2,
           if logging then [LogEntry.log (serverOkMsg type)] else []⟩

/-- C4: a request whose object body lacks type or lacks data is answered 400
with the validation message, and the store is exactly the store before the
request: nothing was inserted. -/
theorem postEvents_missing_field (store : Option MockStore) (body : Js)
    (now : String) (hb : body.isNullish = false)
    (h : body.get "type" = Js.undefined ∨ body.get "data" = Js.undefined) :
    (postEvents store body now).resp.status = 400 ∧
    (postEvents store body now).resp.body =
      Js.obj [("error", Js.str missingFieldsMsg)] ∧
    (postEvents store body now).store = store := by
  rcases h with h | h <;>
    refine ⟨?_, ?_, ?_⟩ <;> simp [postEvents, hb, h, Js.truthy]

/-- A store whose next insert would be accepted, used by several witnesses:
the 400 answers must leave it untouched even though it would accept. -/
def acceptingStore : MockStore := ⟨[], [], .ok Js.null, none⟩

/-- A body carrying only data, used to witness C4. -/
def bodyNoType : Js := Js.obj [("data", Js.obj [("x", Js.num 1)])]

/-- C4 witness at a body lacking type, against a store that would accept the
insert. -/
theorem postEvents_missing_field_witness :
    (bodyNoType.isNullish = false ∧ bodyNoType.get "type" = Js.undefined) ∧
    ((postEvents (some acceptingStore) bodyNoType "2026-01-01").resp.status
        = 400 ∧
    (postEvents (some acceptingStore) bodyNoType "2026-01-01").resp.body =
      Js.obj [("error", Js.str missingFieldsMsg)] ∧
    (postEvents (some acceptingStore) bodyNoType "2026-01-01").store =
      some acceptingStore) :=
  ⟨⟨rfl, rfl⟩, postEvents_missing_field (some acceptingStore) bodyNoType
    "2026-01-01" rfl (Or.inl rfl)⟩

/-- C10: a request whose body carries type and data but with a falsy value in
either is also answered 400 with no insert: the handler tests truthiness, not
presence. -/
theorem postEvents_falsy_field (store : Option MockStore) (body : Js)
    (now : String) (hb : body.isNullish = false)
    (hty : body.get "type" ≠ Js.undefined)
    (hda : body.get "data" ≠ Js.undefined)
    (h : (body.get "type").truthy = false ∨
         (body.get "data").truthy = false) :
    (postEvents store body now).resp.status = 400 ∧
    (postEvents store body now).resp.body =
      Js.obj [("error", Js.str missingFieldsMsg)] ∧
    (postEvents store body now).store = store := by
  rcases h with h | h <;>
    refine ⟨?_, ?_, ?_⟩ <;> simp [postEvents, hb, h]

/-- A body whose type is present but the empty string, used for C10 and as
the C5 counterexample input. -/
def bodyEmptyType : Js :=
  Js.obj [("type", Js.str ""), ("data", Js.obj [("x", Js.num 1)])]

/-- C10 witness at a body whose type is the empty string, against a store
that would accept the insert. -/
theorem postEvents_falsy_field_witness :
    (bodyEmptyType.isNullish = false ∧
     bodyEmptyType.get "type" ≠ Js.undefined ∧
     bodyEmptyType.get "data" ≠ Js.undefined ∧
     (bodyEmptyType.get "type").truthy = false) ∧
    ((postEvents (some acceptingStore) bodyEmptyType "2026-01-01").resp.status
        = 400 ∧
    (postEvents (some acceptingStore) bodyEmptyType "2026-01-01").resp.body =
      Js.obj [("error", Js.str missingFieldsMsg)] ∧
    (postEvents (some acceptingStore) bodyEmptyType "2026-01-01").store =
      some acceptingStore) :=
  ⟨⟨rfl, fun h => Js.noConfusion h, fun h => Js.noConfusion h, rfl⟩,
   postEvents_falsy_field (some acceptingStore) bodyEmptyType "2026-01-01"
     rfl (fun h => Js.noConfusion h) (fun h => Js.noConfusion h)
     (Or.inl rfl)⟩

/-- C5 counterexample: the body with type present as the empty string and
data present and truthy, with no store, is answered 400, not 200 as the
claim, read over every body with both fields present, would require. -/
theorem postEvents_present_falsy_counterexample :
    (postEvents none bodyEmptyType "2026-01-01").resp.status = 400 ∧
    (postEvents none bodyEmptyType "2026-01-01").resp.status ≠ 200 :=
  ⟨rfl, by decide⟩

/-- C5 (amended): a request whose body carries truthy type and data, with no
store configured, is answered 200 with success true and persisted false, and
no failure occurs. -/
theorem postEvents_no_store_degraded (body : Js) (now : String)
    (hb : body.isNullish = false)
    (hty : (body.get "type").truthy = true)
    (hda : (body.get "data").truthy = true) :
    postEvents none body now =
      ⟨⟨200, Js.obj [("success", Js.bool true), ("persisted", Js.bool false)]⟩,
       none⟩ := by
  simp [postEvents, hb, hty, hda]

/-- The example body of the specification: type click, data with x equal
to 1. -/
def bodyClick : Js :=
  Js.obj [("type", Js.str "click"), ("data", Js.obj [("x", Js.num 1)])]

/-- C5 witness at the example of the specification. -/
theorem postEvents_no_store_degraded_witness :
    (bodyClick.isNullish = false ∧ (bodyClick.get "type").truthy = true ∧
     (bodyClick.get "data").truthy = true) ∧
    postEvents none bodyClick "2026-01-01" =
      ⟨⟨200, Js.obj [("success", Js.bool true), ("persisted", Js.bool false)]⟩,
       none⟩ :=
  ⟨⟨rfl, rfl, rfl⟩, postEvents_no_store_degraded bodyClick "2026-01-01"
    rfl rfl rfl⟩

/-- When no selected record has a nullish data payload, the projection map
succeeds and is the pointwise projection. -/
theorem mapProject_ok (l : List StoredEvent)
    (h : ∀ e ∈ l, e.data.isNullish = false) :
    mapProject l = .ok (l.map projectMetricBody) := by
  induction l with
  | nil => rfl
  | cons a tl ih =>
      have ha : a.data.isNullish = false := h a (List.mem_cons_self a tl)
      have htl : ∀ e ∈ tl, e.data.isNullish = false :=
        fun e he => h e (List.mem_cons_of_mem a he)
      simp [mapProject, projectMetric, ha, ih htl]

/-- Every record the sorted selection keeps comes from the store rows. -/
theorem mem_selectPerf {rows : List StoredEvent} {cutoff : Int}
    {e : StoredEvent} (he : e ∈ selectPerf rows cutoff) : e ∈ rows := by
  have h1 : e ∈ rows.filter (perfPred cutoff) :=
    (List.mem_insertionSort tsDescRel).mp he
  exact List.mem_of_mem_filter h1

/-- C6: with no store the metrics query is answered 503; with a store whose
select succeeds and whose records carry object payloads, it is answered 200
with the projections of a selection that is a permutation of exactly the
records of type performance with timestamp at least now minus days (default
7) days, ordered newest-first. -/
theorem getPerformanceMetrics_spec (s : MockStore) (daysQ : Option Nat)
    (now : Int) (hsel : s.selectError = none)
    (hdata : ∀ e ∈ s.rows, e.data.isNullish = false) :
    (getPerformanceMetrics none daysQ now).resp.status = 503 ∧
    ∃ sel : List StoredEvent,
      (getPerformanceMetrics (some s) daysQ now).resp =
        ⟨200, Js.arr (sel.map projectMetricBody)⟩ ∧
      sel.Perm
        (s.rows.filter (perfPred (now - (daysQ.getD 7 : Int) * msPerDay))) ∧
      List.Sorted tsDescRel sel := by
  refine ⟨rfl, selectPerf s.rows (now - (daysQ.getD 7 : Int) * msPerDay),
    ?_, ?_, ?_⟩
  · have hmap :
        mapProject (selectPerf s.rows (now - (daysQ.getD 7 : Int) * msPerDay))
          = .ok ((selectPerf s.rows
              (now - (daysQ.getD 7 : Int) * msPerDay)).map
                projectMetricBody) :=
      mapProject_ok _ (fun e he => hdata e (mem_selectPerf he))
    simp [getPerformanceMetrics, hsel, hmap]
  · exact List.perm_insertionSort tsDescRel _
  · exact List.sorted_insertionSort tsDescRel _

/-- A performance record inside the window, used to witness C6. -/
def perfRecent : StoredEvent :=
  ⟨1, "performance", 9 * msPerDay,
   Js.obj [("operation", Js.str "load"), ("duration", Js.num 42)], Js.null⟩

/-- A record of another type, used to witness C6. -/
def clickRecord : StoredEvent :=
  ⟨2, "click", 9 * msPerDay, Js.obj [("x", Js.num 1)], Js.null⟩

/-- A performance record older than the window, used to witness C6. -/
def perfOld : StoredEvent :=
  ⟨3, "performance", 1 * msPerDay,
   Js.obj [("operation", Js.str "save"), ("duration", Js.num 7)], Js.null⟩

/-- A store holding the three records above, whose select succeeds. -/
def metricStore : MockStore :=
  ⟨[perfOld, perfRecent, clickRecord], [], .ok Js.null, none⟩

/-- C6 witness at the three-record store, the default days and day ten. -/
theorem getPerformanceMetrics_spec_witness :
    (metricStore.selectError = none ∧
     ∀ e ∈ metricStore.rows, e.data.isNullish = false) ∧
    ((getPerformanceMetrics none none (10 * msPerDay)).resp.status = 503 ∧
    ∃ sel : List StoredEvent,
      (getPerformanceMetrics (some metricStore) none
          (10 * msPerDay)).resp =
        ⟨200, Js.arr (sel.map projectMetricBody)⟩ ∧
      sel.Perm (metricStore.rows.filter
        (perfPred (10 * msPerDay - ((none : Option Nat).getD 7 : Int)
          * msPerDay))) ∧
      List.Sorted tsDescRel sel) :=
  ⟨⟨rfl, by decide⟩, getPerformanceMetrics_spec metricStore none
    (10 * msPerDay) rfl (by decide)⟩

/-- C7: logEvent is total (never throws), returns true exactly when a
configured store accepts the insert, and reports every store failure, error
result or rejection alike, as false with the failure logged. -/
theorem logEvent_reports_failures (store : Option MockStore) (logging : Bool)
    (type : String) (data : Js) (userId : Js) (now : String) :
    ((logEvent store logging type data userId now).ok = true ↔
      ∃ s d, store = some s ∧ s.insertBehavior = .ok d) ∧
    (∀ s msg, store = some s →
      s.insertBehavior = .errResult msg ∨ s.insertBehavior = .raise msg →
      (logEvent store logging type data userId now).ok = false ∧
      (logEvent store logging type data userId now).logs =
        [LogEntry.error serverErrMsg]) := by
  constructor
  · cases store with
    | none => simp [logEvent]
    | some s =>
        cases hb : s.insertBehavior <;>
          simp [logEvent, storeInsert, hb]
  · rintro s msg rfl (hb | hb) <;> simp [logEvent, storeInsert, hb]

/-- A store whose insert resolves with an error result, used to witness
C7. -/
def errStore : MockStore := ⟨[], [], .errResult "db down", none⟩

/-- C7 witness at the error-result store. -/
theorem logEvent_reports_failures_witness :
    ((logEvent (some errStore) true "server-start" Js.null Js.undefined
        "2026-01-01").ok = true ↔
      ∃ s d, (some errStore : Option MockStore) = some s ∧
        s.insertBehavior = .ok d) ∧
    (∀ s msg, (some errStore : Option MockStore) = some s →
      s.insertBehavior = .errResult msg ∨ s.insertBehavior = .raise msg →
      (logEvent (some errStore) true "server-start" Js.null Js.undefined
        "2026-01-01").ok = false ∧
      (logEvent (some errStore) true "server-start" Js.null Js.undefined
        "2026-01-01").logs = [LogEntry.error serverErrMsg]) :=
  logEvent_reports_failures (some errStore) true "server-start" Js.null
    Js.undefined "2026-01-01"

/-! ### Capability probe (tool checkBrowserCompatibility, browser-tools-mcp.ts)

The host runtime is embedded as a record of the values the probe reads.
Plain property reads on window and navigator yield a value and do not throw;
the canvas creation and the two getContext calls of the graphics probe may
throw, which is exactly the part the source wraps in try/catch. -/

/-- The host runtime as seen by the capability probe. -/
structure HostEnv : Type where
  localStorage : Js
  sessionStorage : Js
  webSocket : Js
  serviceWorkerInNavigator : Bool
  createElementCanvas : Except String Unit
  webGLRenderingContext : Js
  getContextWebgl : Except String Js
  getContextExperimentalWebgl : Except String Js
  rtcPeerConnection : Js
  webkitRTCPeerConnection : Js
  mozRTCPeerConnection : Js

/-- The graphics probe: create a canvas and test WebGLRenderingContext
together with one of the two context kinds, inside a try/catch that turns any
thrown failure into false. -/
def probeWebGL (env : HostEnv) : Bool :=
  match env.createElementCanvas with
  | .error _ => false
  | .ok _ =>
      if !env.webGLRenderingContext.truthy then false
      else
        match env.getContextWebgl with
        | .error _ => false
        | .ok g1 =>
            if g1.truthy then true
            else
              match env.getContextExperimentalWebgl with
              | .error _ => false
              | .ok g2 => g2.truthy

/-- The checkBrowserCompatibility tool: the features object, in the order the
source builds it. -/
def checkBrowserCompatibility (env : HostEnv) : List (String × Bool) :=
  [("localStorage", env.localStorage.truthy),
   ("sessionStorage", env.sessionStorage.truthy),
   ("webSockets", env.webSocket.truthy),
   ("serviceWorkers", env.serviceWorkerInNavigator),
   ("webGL", probeWebGL env),
   ("webRTC", env.rtcPeerConnection.truthy ||
     env.webkitRTCPeerConnection.truthy ||
     env.mozRTCPeerConnection.truthy)]

/-- C8: on every host, the probe yields a mapping whose keys are exactly the
six capability names, each bound to a boolean; the probe is a total function
of the host, so it never throws, however many capabilities the host lacks or
rejects. -/
theorem checkBrowserCompatibility_keys (env : HostEnv) :
    (checkBrowserCompatibility env).map Prod.fst =
      ["localStorage", "sessionStorage", "webSockets", "serviceWorkers",
       "webGL", "webRTC"] := rfl

/-! ### React hook facade (useBrowserTools, src/src/integrations/react-hooks.ts)

The facade wraps the shared default registry. Its observable behaviour is
embedded as the returned value together with the names passed to executeTool
and whether the timing instrumentation of the measurePerformance tool ran. -/

/-- Observable outcome of one facade call. -/
structure FacadeResult (V : Type) : Type where
  value : V
  registryCalls : List String
  timed : Bool

/-- The debugState function of useBrowserTools: in development mode it runs
the debugState tool of the shared registry (which displays and returns the
state); it returns the state in every mode. -/
def hookDebugState {V : Type} (devMode : Bool) (state : V)
    (label : Option String) : FacadeResult V :=
  if devMode then ⟨state, ["debugState"], false⟩
  else ⟨state, [], false⟩

/-- The measurePerformance function of useBrowserTools: in development mode
it runs the measurePerformance tool of the shared registry, which times the
call of fn around its invocation and returns its result; outside development
mode it invokes fn directly. -/
def hookMeasurePerformance {V : Type} (devMode : Bool) (fn : Unit → V)
    (label : Option String) : FacadeResult V :=
  if devMode then ⟨fn (), ["measurePerformance"], true⟩
  else ⟨fn (), [], false⟩

/-- C9: with the development-mode flag unset, debugState returns its input
state unchanged with no registry call, and measurePerformance returns exactly
the direct invocation of fn with no registry call and no timing
instrumentation. -/
theorem hook_no_dev_passthrough {V : Type} (state : V) (fn : Unit → V)
    (label1 label2 : Option String) :
    hookDebugState false state label1 = ⟨state, [], false⟩ ∧
    hookMeasurePerformance false fn label2 = ⟨fn (), [], false⟩ :=
  ⟨rfl, rfl⟩
